import Mathlib

/-!
Shallow embedding of the JCMS JNI binding (`src/jni/cpp/jcms.cpp`).

The binding is glue code between a managed runtime (JNI) and the lcms2
color-management library.  We embed each exported JNI function as a pure
Lean function parameterised over an oracle `Lcms` describing the external
library's responses, and returning the function's result together with a
trace of the observable events it performs: JNI marshaling operations
(string / byte-array view acquisition and release, array and string
creation) and the calls into the library with their exact arguments.
Opaque handles (`cmsHPROFILE`, `cmsHTRANSFORM`, `cmsToneCurve*`) are
carried as integers, exactly as the binding carries them (`jlong` casts).
-/

/-- The `cmsCIExyY` white point values reachable by the binding: it only
ever obtains one via `cmsD50_xyY()`. -/
inductive XYY where
  | d50xyY
deriving DecidableEq

/-- A `jstring` reference handed to the binding by the runtime: an object
identity plus its character content. -/
structure JStringRef where
  id : Nat
  str : String

/-- A `jbyteArray` reference handed to the binding by the runtime: an
object identity plus its byte content. -/
structure JByteArrayRef where
  id : Nat
  data : List Int

/-- A `jbyteArray` returned by the binding: either the null reference or
an array object with an identity and contents. -/
inductive JByteArrayResult where
  | null
  | arr (id : Nat) (data : List Int)
deriving DecidableEq

/-- Observable events of one binding call: JNI marshaling operations and
calls into the lcms2 library together with the exact arguments passed. -/
inductive Event where
  | getStringUTFChars (sid : Nat)
  | releaseStringUTFChars (sid : Nat)
  | getByteArrayElements (aid : Nat)
  | releaseByteArrayElements (aid : Nat)
  | newByteArray (aid : Nat) (len : Nat)
  | newStringUTF (s : String)
  | cppDelete (aid : Nat)
  | throwException
  | callOpenProfileFromFile (path mode : String)
  | callOpenProfileFromMem (data : List Int) (size : Nat)
  | callCloseProfile (hprofile : Int)
  | callGetProfileInfoASCII (hprofile : Int) (info : Nat) (locale lang : String)
      (bufSize : Nat)
  | callSaveProfileToMem (hprofile : Int) (destIsNull : Bool) (sizeIn : Nat)
  | callCreateTransform (hInputProfile inputType hOutputProfile outputType
      intent flags : Int)
  | callDeleteTransform (hTransform : Int)
  | callDoTransform (hTransform : Int) (input : List Int) (size : Int)
  | callBuildGamma (contextID : Int) (gamma : Float)
  | callCreateGrayProfile (whitePoint : XYY) (curve : Int)
  | callFreeToneCurve (curve : Int)
  | callCreateSRGBProfile

/-- Oracle for the external lcms2 library: one field per library entry
point the binding uses.  `cmsSaveProfileToMem` is split into its two call
shapes: `saveProfileToMemQuery` is the call with a NULL destination
(returns the required size, or `none` on failure) and
`saveProfileToMemFill` is the call with an allocated destination of the
given size (returns the bytes written, or `none` on failure). -/
structure Lcms where
  openProfileFromFile : String → String → Int
  openProfileFromMem : List Int → Nat → Int
  closeProfile : Int → Bool
  getProfileInfoASCII : Int → Nat → String → String → Nat → String
  saveProfileToMemQuery : Int → Option Nat
  saveProfileToMemFill : Int → Nat → Option (List Int)
  createTransform : Int → Int → Int → Int → Int → Int → Int
  deleteTransform : Int → Unit
  doTransform : Int → List Int → Int → List Int
  createSRGBProfile : Int
  buildGamma : Int → Float → Int
  createGrayProfile : XYY → Int → Int
  freeToneCurve : Int → Unit

/-- The `cmsInfoDescription` selector of `cmsGetProfileInfoASCII`
(value 0 in `lcms2.h`). -/
def cmsInfoDescription : Nat := 0

/-- Embedding of `Java_com_gmail_etordera_jcms_JCMS_cmsOpenProfileFromFile`:
acquire both UTF string views, call `cmsOpenProfileFromFile`, release both
views, return the handle cast to `jlong`. -/
def Java_com_gmail_etordera_jcms_JCMS_cmsOpenProfileFromFile
    (lib : Lcms) (filename mode : JStringRef) : Int × List Event :=
  (lib.openProfileFromFile filename.str mode.str,
   [Event.getStringUTFChars filename.id,
    Event.getStringUTFChars mode.id,
    Event.callOpenProfileFromFile filename.str mode.str,
    Event.releaseStringUTFChars filename.id,
    Event.releaseStringUTFChars mode.id])

/-- Embedding of `Java_com_gmail_etordera_jcms_JCMS_cmsOpenProfileFromMem`:
acquire the byte-array view, read the array length from the runtime
(`GetArrayLength`, which by JNI semantics is exactly the array's length),
call `cmsOpenProfileFromMem` with that pointer/length pair, release the
view, return the handle. -/
def Java_com_gmail_etordera_jcms_JCMS_cmsOpenProfileFromMem
    (lib : Lcms) (dataBuffer : JByteArrayRef) : Int × List Event :=
  (lib.openProfileFromMem dataBuffer.data dataBuffer.data.length,
   [Event.getByteArrayElements dataBuffer.id,
    Event.callOpenProfileFromMem dataBuffer.data dataBuffer.data.length,
    Event.releaseByteArrayElements dataBuffer.id])

/-- Embedding of `Java_com_gmail_etordera_jcms_JCMS_cmsCloseProfile`:
call `cmsCloseProfile` (its return value is discarded by the binding) and
return the literal `true`. -/
def Java_com_gmail_etordera_jcms_JCMS_cmsCloseProfile
    (lib : Lcms) (hprofile : Int) : Bool × List Event :=
  let _ := lib.closeProfile hprofile
  (true, [Event.callCloseProfile hprofile])

/-- Embedding of `Java_com_gmail_etordera_jcms_JCMS_cmsGetProfileInfoASCII`:
call `cmsGetProfileInfoASCII` with the description selector, the
hard-coded locale `"en"`/`"EN"` and a 512-byte stack buffer, then return
`NewStringUTF` of that buffer's content. -/
def Java_com_gmail_etordera_jcms_JCMS_cmsGetProfileInfoASCII
    (lib : Lcms) (hprofile : Int) : String × List Event :=
  let textBuffer := lib.getProfileInfoASCII hprofile cmsInfoDescription "en" "EN" 512
  (textBuffer,
   [Event.callGetProfileInfoASCII hprofile cmsInfoDescription "en" "EN" 512,
    Event.newStringUTF textBuffer])

/-- Embedding of `Java_com_gmail_etordera_jcms_JCMS_cmsSaveProfileToMem`.
Phase 1 queries the size with a NULL destination; on failure the binding
returns `NewByteArray(0)` (a fresh empty array, id `fresh`).  Otherwise
it allocates `NewByteArray(size)` (id `fresh`), acquires its element
view, and calls save again with the real destination; on failure it does
`delete dataBuffer`, releases the view and returns a second fresh empty
array (id `fresh + 1`); on success it releases the view (mode 0 commits
the written bytes back) and returns the filled array. -/
def Java_com_gmail_etordera_jcms_JCMS_cmsSaveProfileToMem
    (lib : Lcms) (hprofile : Int) (fresh : Nat) :
    JByteArrayResult × List Event :=
  match lib.saveProfileToMemQuery hprofile with
  | none =>
      (JByteArrayResult.arr fresh [],
       [Event.callSaveProfileToMem hprofile true 0,
        Event.newByteArray fresh 0])
  | some size =>
      match lib.saveProfileToMemFill hprofile size with
      | none =>
          (JByteArrayResult.arr (fresh + 1) [],
           [Event.callSaveProfileToMem hprofile true 0,
            Event.newByteArray fresh size,
            Event.getByteArrayElements fresh,
            Event.callSaveProfileToMem hprofile false size,
            Event.cppDelete fresh,
            Event.releaseByteArrayElements fresh,
            Event.newByteArray (fresh + 1) 0])
      | some bytes =>
          (JByteArrayResult.arr fresh bytes,
           [Event.callSaveProfileToMem hprofile true 0,
            Event.newByteArray fresh size,
            Event.getByteArrayElements fresh,
            Event.callSaveProfileToMem hprofile false size,
            Event.releaseByteArrayElements fresh])

/-- Embedding of `Java_com_gmail_etordera_jcms_JCMS_cmsCreateTransform`:
forward both profile handles and the four integer codes to
`cmsCreateTransform` unmodified and return the resulting handle. -/
def Java_com_gmail_etordera_jcms_JCMS_cmsCreateTransform
    (lib : Lcms)
    (hInputProfile inputType hOutputProfile outputType intent flags : Int) :
    Int × List Event :=
  (lib.createTransform hInputProfile inputType hOutputProfile outputType
     intent flags,
   [Event.callCreateTransform hInputProfile inputType hOutputProfile
      outputType intent flags])

/-- Embedding of `Java_com_gmail_etordera_jcms_JCMS_cmsDeleteTransform`:
call `cmsDeleteTransform` and return nothing. -/
def Java_com_gmail_etordera_jcms_JCMS_cmsDeleteTransform
    (lib : Lcms) (hTransform : Int) : Unit × List Event :=
  let _ := lib.deleteTransform hTransform
  ((), [Event.callDeleteTransform hTransform])

/-- Embedding of `Java_com_gmail_etordera_jcms_JCMS_cmsDoTransform`:
acquire both byte-array views, call `cmsDoTransform` with the pixel
count, release both views (mode 0 commits the output bytes).  The first
component is the output array's content after the call. -/
def Java_com_gmail_etordera_jcms_JCMS_cmsDoTransform
    (lib : Lcms) (hTransform : Int)
    (inputBuffer outputBuffer : JByteArrayRef) (size : Int) :
    List Int × List Event :=
  (lib.doTransform hTransform inputBuffer.data size,
   [Event.getByteArrayElements inputBuffer.id,
    Event.getByteArrayElements outputBuffer.id,
    Event.callDoTransform hTransform inputBuffer.data size,
    Event.releaseByteArrayElements inputBuffer.id,
    Event.releaseByteArrayElements outputBuffer.id])

/-- Embedding of `Java_com_gmail_etordera_jcms_JCMS_cmsCreate_1sRGBProfile`:
call `cmsCreate_sRGBProfile` and return its handle. -/
def Java_com_gmail_etordera_jcms_JCMS_cmsCreate_1sRGBProfile
    (lib : Lcms) : Int × List Event :=
  (lib.createSRGBProfile, [Event.callCreateSRGBProfile])

/-- Embedding of `Java_com_gmail_etordera_jcms_JCMS_cmsCreateGrayProfile`:
build a tone curve from the gamma value (`cmsBuildGamma(0, gamma)`),
create a gray profile with `cmsD50_xyY()` and that curve, free the curve
(`cmsFreeToneCurve`), return only the profile handle. -/
def Java_com_gmail_etordera_jcms_JCMS_cmsCreateGrayProfile
    (lib : Lcms) (gamma : Float) : Int × List Event :=
  let gammaCurve := lib.buildGamma 0 gamma
  let hProfile := lib.createGrayProfile XYY.d50xyY gammaCurve
  let _ := lib.freeToneCurve gammaCurve
  (hProfile,
   [Event.callBuildGamma 0 gamma,
    Event.callCreateGrayProfile XYY.d50xyY gammaCurve,
    Event.callFreeToneCurve gammaCurve])

/-- Identities of the string views acquired (`GetStringUTFChars`) in a
trace, in order. -/
def acquiredStrViews (t : List Event) : List Nat :=
  t.filterMap fun e =>
    match e with
    | Event.getStringUTFChars sid => some sid
    | _ => none

/-- Identities of the string views released (`ReleaseStringUTFChars`) in a
trace, in order. -/
def releasedStrViews (t : List Event) : List Nat :=
  t.filterMap fun e =>
    match e with
    | Event.releaseStringUTFChars sid => some sid
    | _ => none

/-- Identities of the byte-array views acquired (`GetByteArrayElements`)
in a trace, in order. -/
def acquiredArrViews (t : List Event) : List Nat :=
  t.filterMap fun e =>
    match e with
    | Event.getByteArrayElements aid => some aid
    | _ => none

/-- Identities of the byte-array views released
(`ReleaseByteArrayElements`) in a trace, in order. -/
def releasedArrViews (t : List Event) : List Nat :=
  t.filterMap fun e =>
    match e with
    | Event.releaseByteArrayElements aid => some aid
    | _ => none

/-- An invocation of one of the binding's exported operations, with its
arguments. -/
inductive Op where
  | openProfileFromFile (filename mode : JStringRef)
  | openProfileFromMem (dataBuffer : JByteArrayRef)
  | closeProfile (hprofile : Int)
  | getProfileInfoASCII (hprofile : Int)
  | saveProfileToMem (hprofile : Int) (fresh : Nat)
  | createTransform (hInputProfile inputType hOutputProfile outputType
      intent flags : Int)
  | deleteTransform (hTransform : Int)
  | doTransform (hTransform : Int) (inputBuffer outputBuffer : JByteArrayRef)
      (size : Int)
  | createSRGBProfile
  | createGrayProfile (gamma : Float)

/-- The value an invocation returns to the managed caller. -/
inductive OpResult where
  | longResult (v : Int)
  | boolResult (b : Bool)
  | stringResult (s : String)
  | arrayResult (r : JByteArrayResult)
  | bytesResult (l : List Int)
  | unitResult

/-- Dispatch one invocation to the corresponding binding function. -/
def runOp (lib : Lcms) : Op → OpResult × List Event
  | Op.openProfileFromFile filename mode =>
      let r := Java_com_gmail_etordera_jcms_JCMS_cmsOpenProfileFromFile lib filename mode
      (OpResult.longResult r.1, r.2)
  | Op.openProfileFromMem dataBuffer =>
      let r := Java_com_gmail_etordera_jcms_JCMS_cmsOpenProfileFromMem lib dataBuffer
      (OpResult.longResult r.1, r.2)
  | Op.closeProfile hprofile =>
      let r := Java_com_gmail_etordera_jcms_JCMS_cmsCloseProfile lib hprofile
      (OpResult.boolResult r.1, r.2)
  | Op.getProfileInfoASCII hprofile =>
      let r := Java_com_gmail_etordera_jcms_JCMS_cmsGetProfileInfoASCII lib hprofile
      (OpResult.stringResult r.1, r.2)
  | Op.saveProfileToMem hprofile fresh =>
      let r := Java_com_gmail_etordera_jcms_JCMS_cmsSaveProfileToMem lib hprofile fresh
      (OpResult.arrayResult r.1, r.2)
  | Op.createTransform a b c d e fl =>
      let r := Java_com_gmail_etordera_jcms_JCMS_cmsCreateTransform lib a b c d e fl
      (OpResult.longResult r.1, r.2)
  | Op.deleteTransform hTransform =>
      let r := Java_com_gmail_etordera_jcms_JCMS_cmsDeleteTransform lib hTransform
      (OpResult.unitResult, r.2)
  | Op.doTransform hTransform inputBuffer outputBuffer size =>
      let r := Java_com_gmail_etordera_jcms_JCMS_cmsDoTransform lib hTransform
        inputBuffer outputBuffer size
      (OpResult.bytesResult r.1, r.2)
  | Op.createSRGBProfile =>
      let r := Java_com_gmail_etordera_jcms_JCMS_cmsCreate_1sRGBProfile lib
      (OpResult.longResult r.1, r.2)
  | Op.createGrayProfile gamma =>
      let r := Java_com_gmail_etordera_jcms_JCMS_cmsCreateGrayProfile lib gamma
      (OpResult.longResult r.1, r.2)

/-- Run a sequence of invocations; the binding layer threads no state of
its own between them, so the sequence result is a plain map. -/
def runOps (lib : Lcms) (ops : List Op) : List OpResult :=
  ops.map fun o => (runOp lib o).1

/-- A concrete library oracle for evaluating the binding on closed
inputs; its size-query phase of profile serialization always fails. -/
def baseLib : Lcms where
  openProfileFromFile := fun _ _ => 7
  openProfileFromMem := fun _ _ => 8
  closeProfile := fun _ => false
  getProfileInfoASCII := fun _ _ _ _ _ => ""
  saveProfileToMemQuery := fun _ => none
  saveProfileToMemFill := fun _ _ => none
  createTransform := fun _ _ _ _ _ _ => 9
  deleteTransform := fun _ => ()
  doTransform := fun _ data _ => data
  createSRGBProfile := 10
  buildGamma := fun _ _ => 11
  createGrayProfile := fun _ _ => 12
  freeToneCurve := fun _ => ()

/-- A concrete library oracle whose profile serialization succeeds in
both phases, reporting size 3 and writing three bytes. -/
def saveOkLib : Lcms :=
  { baseLib with
    saveProfileToMemQuery := fun _ => some 3,
    saveProfileToMemFill := fun _ _ => some [1, 2, 3] }

/-- A concrete library oracle whose size query succeeds (size 3) but
whose fill phase fails. -/
def fillFailLib : Lcms :=
  { baseLib with saveProfileToMemQuery := fun _ => some 3 }

/-- Claim C1: for every profile handle, if the first (size-query) call to
`cmsSaveProfileToMem` fails, the binding's save-profile-to-memory
operation returns an empty byte array of length zero (the fresh array
`NewByteArray(0)`), never the null reference. -/
theorem saveProfileToMem_queryFail_empty_not_null
    (lib : Lcms) (hprofile : Int) (fresh : Nat)
    (hq : lib.saveProfileToMemQuery hprofile = none) :
    (Java_com_gmail_etordera_jcms_JCMS_cmsSaveProfileToMem lib hprofile fresh).1 =
      JByteArrayResult.arr fresh [] ∧
    (Java_com_gmail_etordera_jcms_JCMS_cmsSaveProfileToMem lib hprofile fresh).1 ≠
      JByteArrayResult.null := by
  simp [Java_com_gmail_etordera_jcms_JCMS_cmsSaveProfileToMem, hq]

/-- Witness for C1: a concrete oracle whose size query fails; the result
is the empty array with the fresh identity, and is not null. -/
theorem saveProfileToMem_queryFail_witness :
    (Java_com_gmail_etordera_jcms_JCMS_cmsSaveProfileToMem baseLib 1 0).1 =
      JByteArrayResult.arr 0 [] ∧
    (Java_com_gmail_etordera_jcms_JCMS_cmsSaveProfileToMem baseLib 1 0).1 ≠
      JByteArrayResult.null :=
  saveProfileToMem_queryFail_empty_not_null baseLib 1 0 rfl

/-- Claim C2: for every handle value and every library behavior — in
particular also when the library's `cmsCloseProfile` reports failure —
the close-profile operation returns `true`; the library's return value is
never propagated. -/
theorem closeProfile_always_true (lib : Lcms) (hprofile : Int) :
    (Java_com_gmail_etordera_jcms_JCMS_cmsCloseProfile lib hprofile).1 = true :=
  rfl

/-- Claim C4: for every profile handle whose size query succeeds (with
size `n`) and whose fill phase succeeds, the binding performs exactly the
two-phase protocol: a save call with a NULL destination, allocation of a
buffer of exactly `n` bytes, a second save call with that destination and
size `n`, and it returns the filled buffer. -/
theorem saveProfileToMem_two_phase
    (lib : Lcms) (hprofile : Int) (fresh n : Nat) (bytes : List Int)
    (hq : lib.saveProfileToMemQuery hprofile = some n)
    (hf : lib.saveProfileToMemFill hprofile n = some bytes) :
    Java_com_gmail_etordera_jcms_JCMS_cmsSaveProfileToMem lib hprofile fresh =
      (JByteArrayResult.arr fresh bytes,
       [Event.callSaveProfileToMem hprofile true 0,
        Event.newByteArray fresh n,
        Event.getByteArrayElements fresh,
        Event.callSaveProfileToMem hprofile false n,
        Event.releaseByteArrayElements fresh]) := by
  simp [Java_com_gmail_etordera_jcms_JCMS_cmsSaveProfileToMem, hq, hf]

/-- Witness for C4: a concrete oracle reporting size 3 and writing three
bytes; the result is the filled 3-byte array and the trace shows the
query call, the allocation of exactly 3 bytes, and the fill call. -/
theorem saveProfileToMem_two_phase_witness :
    Java_com_gmail_etordera_jcms_JCMS_cmsSaveProfileToMem saveOkLib 1 0 =
      (JByteArrayResult.arr 0 [1, 2, 3],
       [Event.callSaveProfileToMem 1 true 0,
        Event.newByteArray 0 3,
        Event.getByteArrayElements 0,
        Event.callSaveProfileToMem 1 false 3,
        Event.releaseByteArrayElements 0]) :=
  saveProfileToMem_two_phase saveOkLib 1 0 3 [1, 2, 3] rfl rfl

/-- Claim C10: if the fill phase of save-profile-to-memory fails after
the destination buffer (identity `fresh`) was allocated, the operation
returns a newly created zero-length array (identity `fresh + 1`) and
never returns the allocated destination buffer, whatever its content. -/
theorem saveProfileToMem_fillFail_fresh_empty
    (lib : Lcms) (hprofile : Int) (fresh n : Nat)
    (hq : lib.saveProfileToMemQuery hprofile = some n)
    (hf : lib.saveProfileToMemFill hprofile n = none) :
    (Java_com_gmail_etordera_jcms_JCMS_cmsSaveProfileToMem lib hprofile fresh).1 =
      JByteArrayResult.arr (fresh + 1) [] ∧
    ∀ d : List Int,
      (Java_com_gmail_etordera_jcms_JCMS_cmsSaveProfileToMem lib hprofile fresh).1 ≠
        JByteArrayResult.arr fresh d := by
  constructor
  · simp [Java_com_gmail_etordera_jcms_JCMS_cmsSaveProfileToMem, hq, hf]
  · intro d
    simp [Java_com_gmail_etordera_jcms_JCMS_cmsSaveProfileToMem, hq, hf]

/-- Witness for C10: a concrete oracle whose query reports size 3 but
whose fill fails; the result is the second fresh empty array (identity 1)
and is not the allocated destination buffer (identity 0). -/
theorem saveProfileToMem_fillFail_witness :
    (Java_com_gmail_etordera_jcms_JCMS_cmsSaveProfileToMem fillFailLib 1 0).1 =
      JByteArrayResult.arr 1 [] ∧
    ∀ d : List Int,
      (Java_com_gmail_etordera_jcms_JCMS_cmsSaveProfileToMem fillFailLib 1 0).1 ≠
        JByteArrayResult.arr 0 d :=
  saveProfileToMem_fillFail_fresh_empty fillFailLib 1 0 3 rfl rfl

/-- Claim C5: the get-profile-description operation always calls the
library with the description selector, the hard-coded (caller
inaccessible) locale `"en"`/`"EN"` and buffer size 512, and — under the
lcms contract that the text written into a buffer of nonzero size `n` is
at most `n - 1` bytes (the terminator occupies one byte) — the returned
string is at most 511 bytes long. -/
theorem getProfileInfoASCII_fixed_locale_length
    (lib : Lcms) (hprofile : Int)
    (htrunc : ∀ (hp : Int) (info : Nat) (loc lang : String) (n : Nat),
      n ≠ 0 → (lib.getProfileInfoASCII hp info loc lang n).length ≤ n - 1) :
    (Java_com_gmail_etordera_jcms_JCMS_cmsGetProfileInfoASCII lib hprofile).2 =
      [Event.callGetProfileInfoASCII hprofile cmsInfoDescription "en" "EN" 512,
       Event.newStringUTF
         ((Java_com_gmail_etordera_jcms_JCMS_cmsGetProfileInfoASCII lib hprofile).1)] ∧
    (Java_com_gmail_etordera_jcms_JCMS_cmsGetProfileInfoASCII lib hprofile).1 =
      lib.getProfileInfoASCII hprofile cmsInfoDescription "en" "EN" 512 ∧
    (Java_com_gmail_etordera_jcms_JCMS_cmsGetProfileInfoASCII lib hprofile).1.length ≤ 511 :=
  ⟨rfl, rfl, htrunc hprofile cmsInfoDescription "en" "EN" 512 (by decide)⟩

/-- Witness for C5: evaluating the operation on a concrete oracle that
satisfies the truncation contract yields a description of at most 511
bytes. -/
theorem getProfileInfoASCII_witness :
    (Java_com_gmail_etordera_jcms_JCMS_cmsGetProfileInfoASCII baseLib 5).1.length ≤ 511 :=
  (getProfileInfoASCII_fixed_locale_length baseLib 5
    (fun _ _ _ _ _ _ => by simp [baseLib])).2.2

/-- Claim C6: for every gamma value, create-gray-profile builds a tone
curve from that gamma (`cmsBuildGamma(0, gamma)`), creates a gray profile
with the D50 white point and that same curve, frees that same curve
before returning, and returns only the profile handle — the tone-curve
value appears in the trace but not in the result. -/
theorem createGrayProfile_curve_freed (lib : Lcms) (gamma : Float) :
    Java_com_gmail_etordera_jcms_JCMS_cmsCreateGrayProfile lib gamma =
      (lib.createGrayProfile XYY.d50xyY (lib.buildGamma 0 gamma),
       [Event.callBuildGamma 0 gamma,
        Event.callCreateGrayProfile XYY.d50xyY (lib.buildGamma 0 gamma),
        Event.callFreeToneCurve (lib.buildGamma 0 gamma)]) :=
  rfl

/-- Claim C7: the construction operations return exactly the handle the
library produced (so the result is null/zero precisely when the library
returns null/zero), their traces contain no exception throw, and
create-transform's library call carries the two profile handles and the
pixel-format, intent and flags codes unmodified. -/
theorem construction_passthrough
    (lib : Lcms) (filename mode : JStringRef) (dataBuffer : JByteArrayRef)
    (hInputProfile inputType hOutputProfile outputType intent flags : Int) :
    ((Java_com_gmail_etordera_jcms_JCMS_cmsOpenProfileFromFile lib filename mode).1 =
        lib.openProfileFromFile filename.str mode.str ∧
      Event.throwException ∉
        (Java_com_gmail_etordera_jcms_JCMS_cmsOpenProfileFromFile lib filename mode).2) ∧
    ((Java_com_gmail_etordera_jcms_JCMS_cmsOpenProfileFromMem lib dataBuffer).1 =
        lib.openProfileFromMem dataBuffer.data dataBuffer.data.length ∧
      Event.throwException ∉
        (Java_com_gmail_etordera_jcms_JCMS_cmsOpenProfileFromMem lib dataBuffer).2) ∧
    ((Java_com_gmail_etordera_jcms_JCMS_cmsCreateTransform lib hInputProfile inputType
        hOutputProfile outputType intent flags).1 =
        lib.createTransform hInputProfile inputType hOutputProfile outputType intent flags ∧
      (Java_com_gmail_etordera_jcms_JCMS_cmsCreateTransform lib hInputProfile inputType
        hOutputProfile outputType intent flags).2 =
        [Event.callCreateTransform hInputProfile inputType hOutputProfile outputType
          intent flags] ∧
      Event.throwException ∉
        (Java_com_gmail_etordera_jcms_JCMS_cmsCreateTransform lib hInputProfile inputType
          hOutputProfile outputType intent flags).2) := by
  refine ⟨⟨rfl, ?_⟩, ⟨rfl, ?_⟩, rfl, rfl, ?_⟩ <;>
    simp [Java_com_gmail_etordera_jcms_JCMS_cmsOpenProfileFromFile,
      Java_com_gmail_etordera_jcms_JCMS_cmsOpenProfileFromMem,
      Java_com_gmail_etordera_jcms_JCMS_cmsCreateTransform]

/-- Claim C9: for every byte buffer passed to open-profile-from-memory,
the length handed to `cmsOpenProfileFromMem` is exactly the buffer's
length as reported by the runtime, and the data/length pair passed to the
library is the whole buffer. -/
theorem openProfileFromMem_whole_buffer (lib : Lcms) (dataBuffer : JByteArrayRef) :
    Java_com_gmail_etordera_jcms_JCMS_cmsOpenProfileFromMem lib dataBuffer =
      (lib.openProfileFromMem dataBuffer.data dataBuffer.data.length,
       [Event.getByteArrayElements dataBuffer.id,
        Event.callOpenProfileFromMem dataBuffer.data dataBuffer.data.length,
        Event.releaseByteArrayElements dataBuffer.id]) :=
  rfl

/-- Claim C3: in the four operations that marshal strings or byte arrays
— open-from-file, open-from-memory, save-to-memory and apply-transform —
the sequence of acquired string-view identities equals the sequence of
released ones, and likewise for byte-array element views, for every
library behavior and thus on every exit path (including the two failure
paths of save-to-memory).  Hence each acquired view is released exactly
once per acquisition, and nothing is released that was not acquired. -/
theorem marshaling_views_balanced
    (lib : Lcms) (filename mode : JStringRef)
    (dataBuffer inputBuffer outputBuffer : JByteArrayRef)
    (hprofile hTransform : Int) (fresh : Nat) (size : Int) :
    (acquiredStrViews
        (Java_com_gmail_etordera_jcms_JCMS_cmsOpenProfileFromFile lib filename mode).2 =
      releasedStrViews
        (Java_com_gmail_etordera_jcms_JCMS_cmsOpenProfileFromFile lib filename mode).2 ∧
     acquiredArrViews
        (Java_com_gmail_etordera_jcms_JCMS_cmsOpenProfileFromFile lib filename mode).2 =
      releasedArrViews
        (Java_com_gmail_etordera_jcms_JCMS_cmsOpenProfileFromFile lib filename mode).2) ∧
    (acquiredStrViews
        (Java_com_gmail_etordera_jcms_JCMS_cmsOpenProfileFromMem lib dataBuffer).2 =
      releasedStrViews
        (Java_com_gmail_etordera_jcms_JCMS_cmsOpenProfileFromMem lib dataBuffer).2 ∧
     acquiredArrViews
        (Java_com_gmail_etordera_jcms_JCMS_cmsOpenProfileFromMem lib dataBuffer).2 =
      releasedArrViews
        (Java_com_gmail_etordera_jcms_JCMS_cmsOpenProfileFromMem lib dataBuffer).2) ∧
    (acquiredStrViews
        (Java_com_gmail_etordera_jcms_JCMS_cmsSaveProfileToMem lib hprofile fresh).2 =
      releasedStrViews
        (Java_com_gmail_etordera_jcms_JCMS_cmsSaveProfileToMem lib hprofile fresh).2 ∧
     acquiredArrViews
        (Java_com_gmail_etordera_jcms_JCMS_cmsSaveProfileToMem lib hprofile fresh).2 =
      releasedArrViews
        (Java_com_gmail_etordera_jcms_JCMS_cmsSaveProfileToMem lib hprofile fresh).2) ∧
    (acquiredStrViews
        (Java_com_gmail_etordera_jcms_JCMS_cmsDoTransform lib hTransform
          inputBuffer outputBuffer size).2 =
      releasedStrViews
        (Java_com_gmail_etordera_jcms_JCMS_cmsDoTransform lib hTransform
          inputBuffer outputBuffer size).2 ∧
     acquiredArrViews
        (Java_com_gmail_etordera_jcms_JCMS_cmsDoTransform lib hTransform
          inputBuffer outputBuffer size).2 =
      releasedArrViews
        (Java_com_gmail_etordera_jcms_JCMS_cmsDoTransform lib hTransform
          inputBuffer outputBuffer size).2) := by
  refine ⟨⟨rfl, rfl⟩, ⟨rfl, rfl⟩, ?_, ⟨rfl, rfl⟩⟩
  cases hq : lib.saveProfileToMemQuery hprofile with
  | none =>
      exact ⟨by simp [Java_com_gmail_etordera_jcms_JCMS_cmsSaveProfileToMem, hq,
          acquiredStrViews, releasedStrViews],
        by simp [Java_com_gmail_etordera_jcms_JCMS_cmsSaveProfileToMem, hq,
          acquiredArrViews, releasedArrViews]⟩
  | some n =>
      cases hf : lib.saveProfileToMemFill hprofile n with
      | none =>
          exact ⟨by simp [Java_com_gmail_etordera_jcms_JCMS_cmsSaveProfileToMem, hq, hf,
              acquiredStrViews, releasedStrViews],
            by simp [Java_com_gmail_etordera_jcms_JCMS_cmsSaveProfileToMem, hq, hf,
              acquiredArrViews, releasedArrViews]⟩
      | some bytes =>
          exact ⟨by simp [Java_com_gmail_etordera_jcms_JCMS_cmsSaveProfileToMem, hq, hf,
              acquiredStrViews, releasedStrViews],
            by simp [Java_com_gmail_etordera_jcms_JCMS_cmsSaveProfileToMem, hq, hf,
              acquiredArrViews, releasedArrViews]⟩

/-- Claim C8: the binding layer is stateless: running any sequence of
operations is a plain map of each invocation to its own result, so the
result of an invocation is determined solely by its arguments and the
library oracle — appending an invocation to any history appends exactly
the result of running it alone, and prepending likewise. -/
theorem binding_stateless (lib : Lcms) (ops : List Op) (o : Op) :
    runOps lib (ops ++ [o]) = runOps lib ops ++ [(runOp lib o).1] ∧
    runOps lib (o :: ops) = (runOp lib o).1 :: runOps lib ops := by
  constructor
  · simp [runOps]
  · rfl
